import Mathlib

/-!
Verification of the EquipSense authentication core (`backend/auth_app`):
a shallow embedding of the OTP verification ledger, registration flow,
password-reset flow, rate limiter and login controller, with theorems
settling the specification's claims about them.

Conventions of the embedding:
* Time is a `Nat` tick count in seconds (`timezone.now()` becomes a `now`
  parameter; `timedelta(minutes=m)` becomes `m * 60`).
* The database is a `List` of rows per table, held in an `AuthState`;
  Django querysets become list filters, `order_by(...).first()` becomes a
  fold picking the maximal key, `.update(...)` becomes a `List.map`.
* Randomly generated OTP codes are passed in as parameters.
* Fallible operations return a result inductive paired with the new state.
-/

/-- One row of `otp_records` (class `OTPRecord` in auth_app/models.py).
`id` is the primary key used to address the row in the store. -/
structure OTPRecord where
  id : Nat
  email : String
  otp_code : String
  purpose : String
  is_verified : Bool
  attempts : Nat
  max_attempts : Nat
  created_at : Nat
  expires_at : Nat
  verified_at : Option Nat
  temp_username : Option String
  temp_first_name : Option String
  temp_last_name : Option String
  deriving DecidableEq, Repr

/-- One row of Django's `auth_user` table (fields the auth_app reads).
`password` stands in for the stored credential hash: `set_password`/
`authenticate` become assignment and comparison on this field. -/
structure User where
  username : String
  email : String
  password : String
  first_name : String
  last_name : String
  is_staff : Bool
  is_superuser : Bool
  is_active : Bool
  deriving DecidableEq, Repr

/-- One row of `user_profiles` (class `UserProfile`), keyed by the
one-to-one `user` foreign key, here the username. -/
structure UserProfile where
  username : String
  is_email_verified : Bool
  is_admin_user : Bool
  last_login_ip : Option String
  login_count : Nat
  deriving DecidableEq, Repr

/-- One row of `login_attempts` (class `LoginAttempt`). -/
structure LoginAttempt where
  username_or_email : String
  ip_address : String
  success : Bool
  failure_reason : Option String
  attempted_at : Nat
  deriving DecidableEq, Repr

/-- The mutable store the auth_app views read and write. -/
structure AuthState where
  otps : List OTPRecord
  users : List User
  profiles : List UserProfile
  attempts : List LoginAttempt
  nextId : Nat
  deriving DecidableEq, Repr

/-- `OTPRecord.is_expired`: `timezone.now() > self.expires_at`. -/
def OTPRecord.is_expired (r : OTPRecord) (now : Nat) : Bool :=
  decide (r.expires_at < now)

/-- `OTPRecord.is_valid`: not verified, not expired, attempts below ceiling. -/
def OTPRecord.is_valid (r : OTPRecord) (now : Nat) : Bool :=
  !r.is_verified && !(r.is_expired now) && decide (r.attempts < r.max_attempts)

/-- The three outcomes of `OTPRecord.verify` (the `(bool, message)` pairs):
success, the combined "OTP expired or maximum attempts reached" failure,
and "Invalid OTP. N attempts remaining". -/
inductive VerifyOutcome where
  | verified
  | expiredOrMax
  | invalidRemaining (remaining : Nat)
  deriving DecidableEq, Repr

/-- Result of one `OTPRecord.verify` call: the outcome, the in-memory
record object after the method body ran, and whether `self.save()` was
executed (the expired/exhausted early return does not save). -/
structure VerifyStep where
  outcome : VerifyOutcome
  record : OTPRecord
  saved : Bool
  deriving DecidableEq, Repr

/-- `OTPRecord.verify(otp_code)`: increments `self.attempts` first, then
checks `is_valid` (on the already-incremented counter), then compares the
code; only the match and mismatch branches call `self.save()`. -/
def OTPRecord.verify (r : OTPRecord) (otp_code : String) (now : Nat) : VerifyStep :=
  let r1 : OTPRecord := { r with attempts := r.attempts + 1 }
  if r1.is_valid now then
    if r.otp_code == otp_code then
      { outcome := .verified,
        record := { r1 with is_verified := true, verified_at := some now },
        saved := true }
    else
      { outcome := .invalidRemaining (r1.max_attempts - r1.attempts),
        record := r1, saved := true }
  else
    { outcome := .expiredOrMax, record := r1, saved := false }

/-- `OTPRecord.get_remaining_time`: seconds until expiry, clamped at 0. -/
def OTPRecord.get_remaining_time (r : OTPRecord) (now : Nat) : Nat :=
  if r.is_expired now then 0 else r.expires_at - now

/-- Descending-order comparison key for `order_by('-verified_at')`:
`none` (SQL NULL) sorts below every timestamp, so a null key never wins. -/
def optLe : Option Nat → Option Nat → Bool
  | none, _ => true
  | some _, none => false
  | some a, some b => decide (a ≤ b)

/-- Fold of `order_by(key desc).first()` over an already-filtered list,
carrying the best row so far; on equal keys the later row wins. -/
def pickLatest (key : OTPRecord → Option Nat) :
    List OTPRecord → Option OTPRecord → Option OTPRecord
  | [], acc => acc
  | r :: rs, none => pickLatest key rs (some r)
  | r :: rs, some b =>
      pickLatest key rs (some (if optLe (key b) (key r) then r else b))

/-- `filter(p).order_by(key desc).first()`. -/
def firstByDesc (key : OTPRecord → Option Nat) (p : OTPRecord → Bool)
    (l : List OTPRecord) : Option OTPRecord :=
  pickLatest key (l.filter p) none

/-- The query `filter(email=…, purpose=…, is_verified=False)
.order_by('-created_at').first()` used by the verify views. -/
def latestUnverified (otps : List OTPRecord) (email purpose : String) :
    Option OTPRecord :=
  firstByDesc (fun r => some r.created_at)
    (fun r => r.email == email && r.purpose == purpose && !r.is_verified) otps

/-- The query `filter(email=…, purpose=…, is_verified=True)
.order_by('-verified_at').first()` used by `create_password`,
`reset_password` and the reset serializer. -/
def latestVerified (otps : List OTPRecord) (email purpose : String) :
    Option OTPRecord :=
  firstByDesc (fun r => r.verified_at)
    (fun r => r.email == email && r.purpose == purpose && r.is_verified) otps

/-- `OTPRecord.create_otp`: mark every unverified record for the same
(email, purpose) as verified ("Mark as used to prevent reuse"), then
insert a fresh record with the given code and `now + validity_minutes`
expiry.  Returns the new record and the new state. -/
def OTPRecord.create_otp (s : AuthState) (now : Nat) (email purpose : String)
    (validity_minutes : Nat) (code : String)
    (tun tfn tln : Option String) : OTPRecord × AuthState :=
  let retired := s.otps.map (fun r =>
    if r.email == email && r.purpose == purpose && !r.is_verified then
      { r with is_verified := true }
    else r)
  let newRec : OTPRecord :=
    { id := s.nextId, email := email, otp_code := code, purpose := purpose,
      is_verified := false, attempts := 0, max_attempts := 5,
      created_at := now, expires_at := now + validity_minutes * 60,
      verified_at := none, temp_username := tun,
      temp_first_name := tfn, temp_last_name := tln }
  (newRec, { s with otps := retired ++ [newRec], nextId := s.nextId + 1 })

/-- Outcome of the `verify_otp` view. -/
inductive VerifyOtpResult where
  | notFound
  | outcome (o : VerifyOutcome)
  deriving DecidableEq, Repr

/-- The `verify_otp` view (views.py): fetch the latest unverified record
for (email, purpose), 404 if none, else run `OTPRecord.verify` and write
the mutated row back only when the method saved it. -/
def verify_otp (s : AuthState) (now : Nat) (email otp_code purpose : String) :
    VerifyOtpResult × AuthState :=
  match latestUnverified s.otps email purpose with
  | none => (.notFound, s)
  | some r =>
    let st := r.verify otp_code now
    let s' := if st.saved then
        { s with otps := s.otps.map (fun x => if x.id == r.id then st.record else x) }
      else s
    (.outcome st.outcome, s')

/-- The special-character class `[!@#$%^&*(),.?":\x7b\x7d|<>]` shared by the
password serializers and `is_strong_password` in utils.py. -/
def special_chars : List Char := "!@#$%^&*(),.?\x22:\x7b\x7d|<>".toList

/-- The custom strength checks of `PasswordCreationSerializer.validate_password`
and `ResetPasswordSerializer.validate_new_password` (identical in source):
length at least 8, an uppercase letter, a digit, a special character.
The platform baseline `django.contrib.auth.password_validation.validate_password`
that runs before these checks is an external validator outside this
repository and is not modelled; its length rule is subsumed by the 8-char
check here and its remaining default validators reject none of the concrete
passwords used in the theorems below. -/
def password_rules_ok (pw : String) : Bool :=
  decide (8 ≤ pw.length) && pw.toList.any (fun c => c.isUpper) &&
  pw.toList.any (fun c => c.isDigit) &&
  pw.toList.any (fun c => special_chars.contains c)

/-- Outcome of the `create_password` view (registration step 4). -/
inductive RegistrationResult where
  | created (username email : String)
  | invalidPassword
  | passwordMismatch
  | emailNotVerified
  | registrationError
  deriving DecidableEq, Repr

/-- The Account row `User.objects.create_user` builds in `create_password`,
from the staged fields of the verified registration record. -/
def mkRegUser (un email pw : String) (r : OTPRecord) : User :=
  { username := un, email := email, password := pw,
    first_name := r.temp_first_name.getD "", last_name := r.temp_last_name.getD "",
    is_staff := false, is_superuser := false, is_active := true }

/-- The Profile row `create_password` creates next to the new Account:
`is_email_verified=True`, every other field at its model default. -/
def mkRegProfile (un : String) : UserProfile :=
  { username := un, is_email_verified := true, is_admin_user := false,
    last_login_ip := none, login_count := 0 }

/-- The `create_password` view: serializer field checks (password rules,
confirmation, a verified registration record must exist — the view re-runs
the same record query), then inside one atomic transaction create the
Account from the staged fields and a Profile with `is_email_verified=True`.
A `create_user` failure (username already taken, or no staged username so
`create_user(username=None)` raises) is caught by the broad `except` and
surfaces as the generic 500, with the transaction rolled back. -/
def create_password (s : AuthState) (email pw confirm : String) :
    RegistrationResult × AuthState :=
  if password_rules_ok pw then
    if pw == confirm then
      match latestVerified s.otps email "registration" with
      | none => (.emailNotVerified, s)
      | some r =>
        match r.temp_username with
        | none => (.registrationError, s)
        | some un =>
          if s.users.any (fun u => u.username == un) then
            (.registrationError, s)
          else
            (.created un email,
             { s with users := s.users ++ [mkRegUser un email pw r],
                      profiles := s.profiles ++ [mkRegProfile un] })
    else (.passwordMismatch, s)
  else (.invalidPassword, s)

/-- Interior-masking of one segment in `mask_email` (utils.py): first char
plus a single star for length at most 2, else first + stars + last; an
empty segment makes the Python `seg[0]` raise, reported here as `none`
(the caller then returns the input unmasked, like the bare `except`). -/
def maskPart (p : String) : Option String :=
  if p.length = 0 then none
  else if p.length ≤ 2 then some ((p.take 1) ++ "*")
  else some ((p.take 1) ++ String.mk (List.replicate (p.length - 2) '*') ++
             p.drop (p.length - 1))

/-- `mask_email` (utils.py): mask the local part and the domain name,
keep the extension; any unpacking or indexing error returns the input. -/
def mask_email (email : String) : String :=
  match email.splitOn "@" with
  | [localPart, domain] =>
    let parts := domain.splitOn "."
    if 2 ≤ parts.length then
      match maskPart localPart, maskPart (String.intercalate "." parts.dropLast) with
      | some ml, some mn => ml ++ "@" ++ mn ++ "." ++ parts.getLastD ""
      | _, _ => email
    else email
  | _ => email

/-- Parameter names of `def send_otp_to_service(email, otp_code, user_data,
purpose='registration')` in utils.py. -/
def send_otp_params : List String := ["email", "otp_code", "user_data", "purpose"]

/-- Parameters of `send_otp_to_service` that have no default value. -/
def send_otp_required_params : List String := ["email", "otp_code", "user_data"]

/-- The keyword arguments `request_password_reset` (views.py) passes to
`send_otp_to_service`: `email=…, otp=…, first_name=…, last_name=…,
purpose='password_reset'`. -/
def reset_send_kwargs : List String :=
  ["email", "otp", "first_name", "last_name", "purpose"]

/-- Python call semantics for the keyword call in `request_password_reset`:
the call binds iff every keyword names a parameter and every parameter
without a default is bound.  `otp`, `first_name` and `last_name` are not
parameters of `send_otp_to_service`, so this is `false` and the call
raises `TypeError` at runtime. -/
def reset_send_call_ok : Bool :=
  reset_send_kwargs.all (fun k => send_otp_params.contains k) &&
  send_otp_required_params.all (fun k => reset_send_kwargs.contains k)

/-- Identifier resolution shared by the login and reset views:
`'@' in identifier` selects email lookup, otherwise username lookup. -/
def find_login_user (s : AuthState) (identifier : String) : Option User :=
  if identifier.toList.contains '@' then
    s.users.find? (fun u => u.email == identifier)
  else
    s.users.find? (fun u => u.username == identifier)

/-- Outcome of the `request_password_reset` view. -/
inductive ResetRequestResult where
  | sent (maskedEmail : String) (expiresIn : Nat)
  | notFound
  | emailNotVerified
  | tooSoon
  | serverError
  deriving DecidableEq, Repr

/-- The `request_password_reset` view: the serializer resolves the
identifier (404 when no user, reject when the profile is missing or the
email unverified), the view applies the 30-second per-email re-request
throttle, issues a 10-minute OTP, then calls `send_otp_to_service` — with
keyword arguments that do not match its signature, so the call raises
`TypeError` after the OTP row is already committed and the broad `except`
returns the generic 500 (`serverError`). -/
def request_password_reset (s : AuthState) (now : Nat) (identifier code : String) :
    ResetRequestResult × AuthState :=
  match find_login_user s identifier with
  | none => (.notFound, s)
  | some u =>
    let verified := match s.profiles.find? (fun p => p.username == u.username) with
      | some p => p.is_email_verified
      | none => false
    if verified then
      if s.otps.any (fun r => r.email == u.email && r.purpose == "password_reset" &&
                              decide (now - 30 ≤ r.created_at)) then
        (.tooSoon, s)
      else
        let (newRec, s') := OTPRecord.create_otp s now u.email "password_reset" 10 code
          (some u.username) (some u.first_name) (some u.last_name)
        if reset_send_call_ok then
          (.sent (mask_email u.email) (newRec.get_remaining_time now), s')
        else
          (.serverError, s')
    else (.emailNotVerified, s)

/-- Outcome of the `verify_reset_otp` view. -/
inductive VerifyResetResult where
  | notFound
  | expired
  | maxAttempts
  | outcome (o : VerifyOutcome)
  deriving DecidableEq, Repr

/-- The `verify_reset_otp` view: latest unverified password_reset record,
404 if none; expired and at-ceiling records are rejected *before*
`OTPRecord.verify` runs (so those calls touch no record at all); otherwise
delegate to `verify` and persist its row when it saved. -/
def verify_reset_otp (s : AuthState) (now : Nat) (email otp_code : String) :
    VerifyResetResult × AuthState :=
  match latestUnverified s.otps email "password_reset" with
  | none => (.notFound, s)
  | some r =>
    if r.is_expired now then (.expired, s)
    else if decide (r.max_attempts ≤ r.attempts) then (.maxAttempts, s)
    else
      let st := r.verify otp_code now
      let s' := if st.saved then
          { s with otps := s.otps.map (fun x => if x.id == r.id then st.record else x) }
        else s
      (.outcome st.outcome, s')

/-- Outcome of the `reset_password` view. -/
inductive ResetPasswordResult where
  | ok
  | invalidPassword
  | passwordMismatch
  | notVerified
  | sessionExpired
  | userNotFound
  | serverError
  deriving DecidableEq, Repr

/-- The `reset_password` view with its serializer: password rules and
confirmation, then the latest verified password_reset record must exist
and have been verified within the last 15 minutes (a bulk-invalidated
record with NULL `verified_at` would make the Python subtraction raise,
caught as the generic 500), then the view rotates the credential of the
user with that email and bulk-marks every password_reset record for the
email as verified. -/
def reset_password (s : AuthState) (now : Nat) (email new_pw confirm : String) :
    ResetPasswordResult × AuthState :=
  if password_rules_ok new_pw then
    if new_pw == confirm then
      match latestVerified s.otps email "password_reset" with
      | none => (.notVerified, s)
      | some r =>
        match r.verified_at with
        | none => (.serverError, s)
        | some t =>
          if decide (900 < now - t) then (.sessionExpired, s)
          else
            match s.users.find? (fun u => u.email == email) with
            | none => (.userNotFound, s)
            | some u =>
              (.ok,
               { s with
                 users := s.users.map (fun x =>
                   if x.username == u.username then { x with password := new_pw } else x),
                 otps := s.otps.map (fun x =>
                   if x.email == email && x.purpose == "password_reset" then
                     { x with is_verified := true }
                   else x) })
    else (.passwordMismatch, s)
  else (.invalidPassword, s)

/-- `LoginAttempt.is_rate_limited`: counts of failed attempts inside the
trailing window, independently by source IP and by identifier; limited
when either count reaches `max_attempts`. -/
def LoginAttempt.is_rate_limited (attempts : List LoginAttempt) (now : Nat)
    (identifier ip_address : String) (max_attempts : Nat := 5)
    (time_window_minutes : Nat := 15) : Bool :=
  let threshold := now - time_window_minutes * 60
  let ip_count := attempts.countP (fun a =>
    a.ip_address == ip_address && !a.success && decide (threshold ≤ a.attempted_at))
  let user_count := attempts.countP (fun a =>
    a.username_or_email == identifier && !a.success && decide (threshold ≤ a.attempted_at))
  decide (max_attempts ≤ ip_count) || decide (max_attempts ≤ user_count)

/-- The claims `generate_jwt_tokens` (utils.py) embeds in the token pair:
username, email and `is_admin = hasattr(user, 'profile') and
user.profile.is_admin_user`. -/
structure TokenClaims where
  username : String
  email : String
  is_admin : Bool
  deriving DecidableEq, Repr

/-- `generate_jwt_tokens` reduced to the claims it embeds. -/
def generate_jwt_tokens (u : User) (profile : Option UserProfile) : TokenClaims :=
  { username := u.username, email := u.email,
    is_admin := match profile with
      | some p => p.is_admin_user
      | none => false }

/-- Outcome of the `user_login` view. -/
inductive LoginResult where
  | ok (tokens : TokenClaims)
  | rateLimited
  | invalidCredentials
  | adminMustUseAdminLogin
  | emailNotVerified
  deriving DecidableEq, Repr

/-- Append one AttemptRecord row (`LoginAttempt.objects.create`). -/
def addAttempt (s : AuthState) (now : Nat) (identifier ip : String)
    (success : Bool) (reason : Option String) : AuthState :=
  { s with attempts := s.attempts ++
      [{ username_or_email := identifier, ip_address := ip, success := success,
         failure_reason := reason, attempted_at := now }] }

/-- The `user_login` view: rate-limit gate (no attempt row written on that
rejection), identifier resolution, `authenticate` (password match on an
active account), admin channel separation, email-verification gate and
per-login profile update — both only when a Profile row exists.  On the
profile update, `last_login_ip` is assigned only on the in-memory object:
`increment_login_count` persists with `save(update_fields=['login_count'])`,
so the stored row changes only in `login_count`. -/
def user_login (s : AuthState) (now : Nat) (username_or_email password ip : String) :
    LoginResult × AuthState :=
  if LoginAttempt.is_rate_limited s.attempts now username_or_email ip then
    (.rateLimited, s)
  else
    match find_login_user s username_or_email with
    | none =>
      (.invalidCredentials,
       addAttempt s now username_or_email ip false (some "Invalid credentials"))
    | some u =>
      if u.is_active && u.password == password then
        let profile := s.profiles.find? (fun p => p.username == u.username)
        let is_admin := u.is_staff || u.is_superuser ||
          (match profile with
           | some p => p.is_admin_user
           | none => false)
        if is_admin then
          (.adminMustUseAdminLogin,
           addAttempt s now username_or_email ip false
             (some "Admin user attempted user login"))
        else
          match profile with
          | some p =>
            if p.is_email_verified then
              let s1 : AuthState :=
                { s with profiles := s.profiles.map (fun q =>
                    if q.username == u.username then
                      { q with login_count := q.login_count + 1 }
                    else q) }
              (.ok (generate_jwt_tokens u profile),
               addAttempt s1 now username_or_email ip true none)
            else
              (.emailNotVerified,
               addAttempt s now username_or_email ip false (some "Email not verified"))
          | none =>
            (.ok (generate_jwt_tokens u none),
             addAttempt s now username_or_email ip true none)
      else
        (.invalidCredentials,
         addAttempt s now username_or_email ip false (some "Invalid credentials"))

/-! ### Properties of the queryset embedding -/

/-- A row produced by the `order_by(...).first()` fold came from the
accumulator or from the list. -/
theorem pickLatest_eq_some (key : OTPRecord → Option Nat) :
    ∀ (l : List OTPRecord) (acc : Option OTPRecord) (r : OTPRecord),
      pickLatest key l acc = some r → acc = some r ∨ r ∈ l := by
  intro l
  induction l with
  | nil => intro acc r h; exact Or.inl h
  | cons r0 rs ih =>
    intro acc r h
    match acc with
    | none =>
      rcases ih (some r0) r (by simpa [pickLatest] using h) with h1 | h1
      · injection h1 with h2; subst h2; exact Or.inr (List.mem_cons_self _ _)
      · exact Or.inr (List.mem_cons_of_mem _ h1)
    | some b =>
      simp only [pickLatest] at h
      rcases ih _ r h with h1 | h1
      · split_ifs at h1
        · injection h1 with h2; subst h2; exact Or.inr (List.mem_cons_self _ _)
        · exact Or.inl h1
      · exact Or.inr (List.mem_cons_of_mem _ h1)

/-- `filter(p).order_by(key desc).first()` returns a row of the table
satisfying the filter. -/
theorem firstByDesc_eq_some (key : OTPRecord → Option Nat) (p : OTPRecord → Bool)
    (l : List OTPRecord) (r : OTPRecord) (h : firstByDesc key p l = some r) :
    r ∈ l ∧ p r = true := by
  rcases pickLatest_eq_some key _ none r h with h1 | h1
  · exact absurd h1 (by simp)
  · exact ⟨List.mem_of_mem_filter h1, List.of_mem_filter h1⟩

/-- The record returned by the unverified-record query matches the email
and purpose and is unverified. -/
theorem latestUnverified_spec (otps : List OTPRecord) (email purpose : String)
    (r : OTPRecord) (h : latestUnverified otps email purpose = some r) :
    r ∈ otps ∧ r.email = email ∧ r.purpose = purpose ∧ r.is_verified = false := by
  have h2 := firstByDesc_eq_some _ _ _ _ h
  refine ⟨h2.1, ?_, ?_, ?_⟩ <;>
    · have h3 := h2.2
      simp only [Bool.and_eq_true, beq_iff_eq, Bool.not_eq_true'] at h3
      tauto

/-- The record returned by the verified-record query matches the email and
purpose and is verified. -/
theorem latestVerified_spec (otps : List OTPRecord) (email purpose : String)
    (r : OTPRecord) (h : latestVerified otps email purpose = some r) :
    r ∈ otps ∧ r.email = email ∧ r.purpose = purpose ∧ r.is_verified = true := by
  have h2 := firstByDesc_eq_some _ _ _ _ h
  refine ⟨h2.1, ?_, ?_, ?_⟩ <;>
    · have h3 := h2.2
      simp only [Bool.and_eq_true, beq_iff_eq] at h3
      tauto

/-! ### Case analysis of `OTPRecord.verify` -/

/-- On an unverified record that is expired or whose incremented counter
reaches the ceiling, `verify` returns the combined failure and does not
save. -/
theorem verify_invalid_case (r : OTPRecord) (code : String) (now : Nat)
    (hunv : r.is_verified = false)
    (h : r.is_expired now = true ∨ r.max_attempts ≤ r.attempts + 1) :
    r.verify code now =
      { outcome := .expiredOrMax, record := { r with attempts := r.attempts + 1 },
        saved := false } := by
  have hv : ({ r with attempts := r.attempts + 1 } : OTPRecord).is_valid now = false := by
    simp only [OTPRecord.is_valid, OTPRecord.is_expired, hunv, Bool.not_false,
      Bool.true_and]
    rcases h with h | h
    · have h3 : r.expires_at < now := by
        simpa [OTPRecord.is_expired] using h
      simp [h3]
    · have h3 : (decide (r.attempts + 1 < r.max_attempts)) = false :=
        decide_eq_false (Nat.not_lt.mpr h)
      simp [h3]
  simp [OTPRecord.verify, hv]

/-- On an unverified, unexpired record below the ceiling even after the
increment, a matching code verifies the record, stamps `verified_at` and
saves. -/
theorem verify_match_case (r : OTPRecord) (code : String) (now : Nat)
    (hunv : r.is_verified = false) (hexp : r.is_expired now = false)
    (hlt : r.attempts + 1 < r.max_attempts) (hcode : r.otp_code = code) :
    r.verify code now =
      { outcome := .verified,
        record :=
          { r with attempts := r.attempts + 1, is_verified := true,
                   verified_at := some now },
        saved := true } := by
  have h3 : ¬ (r.expires_at < now) := by
    simpa [OTPRecord.is_expired] using hexp
  have hv : ({ r with attempts := r.attempts + 1 } : OTPRecord).is_valid now = true := by
    simp [OTPRecord.is_valid, OTPRecord.is_expired, hunv, h3, hlt]
  have hbe : (r.otp_code == code) = true := beq_iff_eq.mpr hcode
  simp [OTPRecord.verify, hv, hbe]

/-- On an unverified, unexpired record below the ceiling even after the
increment, a mismatching code persists the incremented counter and reports
the remaining attempts. -/
theorem verify_mismatch_case (r : OTPRecord) (code : String) (now : Nat)
    (hunv : r.is_verified = false) (hexp : r.is_expired now = false)
    (hlt : r.attempts + 1 < r.max_attempts) (hcode : r.otp_code ≠ code) :
    r.verify code now =
      { outcome := .invalidRemaining (r.max_attempts - (r.attempts + 1)),
        record := { r with attempts := r.attempts + 1 }, saved := true } := by
  have h3 : ¬ (r.expires_at < now) := by
    simpa [OTPRecord.is_expired] using hexp
  have hv : ({ r with attempts := r.attempts + 1 } : OTPRecord).is_valid now = true := by
    simp [OTPRecord.is_valid, OTPRecord.is_expired, hunv, h3, hlt]
  have hbe : (r.otp_code == code) = false := by
    simpa [beq_iff_eq] using hcode
  simp [OTPRecord.verify, hv, hbe]

/-! ### C2 — `OTPRecord.verify` branch structure -/

/-- An unverified, unexpired registration record one attempt below the
ceiling: the next `verify` call increments to the ceiling *before* the
validity check, so even the matching code is rejected. -/
def c2rec : OTPRecord :=
  { id := 0, email := "a@b.com", otp_code := "123456", purpose := "registration",
    is_verified := false, attempts := 4, max_attempts := 5, created_at := 0,
    expires_at := 300, verified_at := none, temp_username := none,
    temp_first_name := none, temp_last_name := none }

/-- C2 counterexample: the claim — that whenever the record is unexpired
and the counter was below the ceiling before the call, a matching code
verifies — is false: at `attempts = max_attempts - 1` the pre-incremented
counter makes `is_valid` fail and the matching code is rejected with the
combined expired-or-max failure. -/
theorem c2_counterexample :
    ¬ (∀ (r : OTPRecord) (code : String) (now : Nat),
        r.is_verified = false → r.is_expired now = false →
        r.attempts < r.max_attempts → r.otp_code = code →
        (r.verify code now).outcome = .verified) := by
  intro h
  have h2 := h c2rec "123456" 10 rfl (by decide) (by decide) rfl
  exact absurd h2 (by decide)

/-- C2 amended: `verify` on an unverified record returns the combined
"expired or maximum attempts" failure, without comparing the code and
without saving, exactly when the record is expired or the counter
*after* the call's unconditional increment reaches the ceiling (i.e. the
counter was already at `max_attempts - 1` or above before the call);
otherwise a matching code sets verified and verified-at and persists, and
a mismatch persists the incremented counter and reports
`max_attempts - (attempts + 1)` remaining attempts. -/
theorem c2_verify_amended (r : OTPRecord) (code : String) (now : Nat)
    (hunv : r.is_verified = false) :
    ((r.is_expired now = true ∨ r.max_attempts ≤ r.attempts + 1) →
      (r.verify code now).outcome = .expiredOrMax ∧
      (r.verify code now).saved = false) ∧
    (r.is_expired now = false → r.attempts + 1 < r.max_attempts →
      ((r.otp_code = code →
         (r.verify code now).outcome = .verified ∧
         (r.verify code now).record =
           { r with attempts := r.attempts + 1, is_verified := true,
                    verified_at := some now } ∧
         (r.verify code now).saved = true) ∧
       (r.otp_code ≠ code →
         (r.verify code now).outcome =
           .invalidRemaining (r.max_attempts - (r.attempts + 1)) ∧
         (r.verify code now).record = { r with attempts := r.attempts + 1 } ∧
         (r.verify code now).saved = true))) := by
  refine ⟨fun h => ?_, fun hexp hlt => ⟨fun hcode => ?_, fun hcode => ?_⟩⟩
  · rw [verify_invalid_case r code now hunv h]
    exact ⟨rfl, rfl⟩
  · rw [verify_match_case r code now hunv hexp hlt hcode]
    exact ⟨rfl, rfl, rfl⟩
  · rw [verify_mismatch_case r code now hunv hexp hlt hcode]
    exact ⟨rfl, rfl, rfl⟩

/-- Closed instance of the amended C2 theorem: a fresh record with a
matching code verifies. -/
def c2wrec : OTPRecord :=
  { id := 1, email := "a@b.com", otp_code := "654321", purpose := "registration",
    is_verified := false, attempts := 0, max_attempts := 5, created_at := 0,
    expires_at := 300, verified_at := none, temp_username := none,
    temp_first_name := none, temp_last_name := none }

theorem c2_verify_amended_witness :
    (c2wrec.verify "654321" 10).outcome = .verified := by
  exact (((c2_verify_amended c2wrec "654321" 10 rfl).2 (by decide) (by decide)).1 rfl).1

/-! ### C3 — persisted attempt counter -/

/-- An unverified registration record whose counter already sits at the
ceiling (5 of 5), not expired. -/
def c3rec : OTPRecord :=
  { id := 7, email := "c@d.com", otp_code := "222222", purpose := "registration",
    is_verified := false, attempts := 5, max_attempts := 5, created_at := 0,
    expires_at := 1000, verified_at := none, temp_username := none,
    temp_first_name := none, temp_last_name := none }

/-- Store holding only `c3rec`. -/
def c3s : AuthState :=
  { otps := [c3rec], users := [], profiles := [], attempts := [], nextId := 8 }

/-- C3 counterexample: a verify call that finds the unverified record
`c3rec` (already at its ceiling) returns the combined failure and leaves
the store unchanged — the stored attempt counter stays at 5 instead of
increasing to 6 as the claim requires (the increment happens only on the
in-memory object, which is never saved on this path). -/
theorem c3_counterexample :
    latestUnverified c3s.otps "c@d.com" "registration" = some c3rec ∧
    c3rec.attempts = 5 ∧
    verify_otp c3s 10 "c@d.com" "222222" "registration" =
      (.outcome .expiredOrMax, c3s) ∧
    (verify_otp c3s 10 "c@d.com" "222222" "registration").2.otps.map
      OTPRecord.attempts = [5] := by
  refine ⟨by decide, rfl, by decide, by decide⟩

/-- C3 amended: a verify call that finds an unverified record and reaches
the code comparison (the record is unexpired and its incremented counter
stays within the ceiling) persists the counter increased by exactly 1 —
including the call that succeeds; a call against a record that is expired,
or whose counter is at `max_attempts - 1` or above, returns the combined
failure and leaves the stored record unchanged. -/
theorem c3_stored_attempts (s : AuthState) (now : Nat) (email purpose code : String)
    (r : OTPRecord) (hfind : latestUnverified s.otps email purpose = some r) :
    ((r.is_expired now = true ∨ r.max_attempts ≤ r.attempts + 1) →
       verify_otp s now email code purpose = (.outcome .expiredOrMax, s)) ∧
    (r.is_expired now = false → r.attempts + 1 < r.max_attempts →
       (verify_otp s now email code purpose).2.otps =
         s.otps.map (fun x => if x.id == r.id then (r.verify code now).record else x) ∧
       (r.verify code now).record.attempts = r.attempts + 1) := by
  have hunv := (latestUnverified_spec s.otps email purpose r hfind).2.2.2
  constructor
  · intro h
    have hv := verify_invalid_case r code now hunv h
    simp [verify_otp, hfind, hv]
  · intro hexp hlt
    by_cases hcode : r.otp_code = code
    · have hv := verify_match_case r code now hunv hexp hlt hcode
      exact ⟨by simp [verify_otp, hfind, hv], by simp [hv]⟩
    · have hv := verify_mismatch_case r code now hunv hexp hlt hcode
      exact ⟨by simp [verify_otp, hfind, hv], by simp [hv]⟩

/-- A store with one fresh unverified reset record, for the closed
instance of the amended C3 theorem. -/
def c3wrec : OTPRecord :=
  { id := 0, email := "c@d.com", otp_code := "333333", purpose := "password_reset",
    is_verified := false, attempts := 0, max_attempts := 5, created_at := 0,
    expires_at := 600, verified_at := none, temp_username := none,
    temp_first_name := none, temp_last_name := none }

def c3ws : AuthState :=
  { otps := [c3wrec], users := [], profiles := [], attempts := [], nextId := 1 }

theorem c3_stored_attempts_witness :
    (verify_otp c3ws 10 "c@d.com" "999999" "password_reset").2.otps =
      c3ws.otps.map (fun x =>
        if x.id == c3wrec.id then (c3wrec.verify "999999" 10).record else x) ∧
    (c3wrec.verify "999999" 10).record.attempts = c3wrec.attempts + 1 :=
  (c3_stored_attempts c3ws 10 "c@d.com" "password_reset" "999999" c3wrec
    (by decide)).2 (by decide) (by decide)

/-! ### C4 — supersede invariant of `create_otp` -/

/-- A record of the (email, purpose) pair that is in the `Live` state at
time `now2`: unverified, unexpired, under its attempt ceiling. -/
def pairLive (email purpose : String) (now2 : Nat) (r : OTPRecord) : Bool :=
  r.email == email && r.purpose == purpose && r.is_valid now2

/-- After the supersede step of `create_otp`, no retired row of the pair
is ever `Live` again: matching unverified rows became verified, and
matching rows that were already verified stay non-`Live`. -/
theorem pairLive_after_retire (email purpose : String) (now2 : Nat) (x : OTPRecord) :
    pairLive email purpose now2
      (if x.email == email && x.purpose == purpose && !x.is_verified then
        { x with is_verified := true } else x) = false := by
  cases he : (x.email == email) <;> cases hp : (x.purpose == purpose) <;>
    cases hv : x.is_verified <;>
      simp [he, hp, hv, pairLive, OTPRecord.is_valid]

/-- Empty store and the two back-to-back issues of the C4 scenario. -/
def c4s0 : AuthState :=
  { otps := [], users := [], profiles := [], attempts := [], nextId := 0 }

def c4s1 : AuthState :=
  (OTPRecord.create_otp c4s0 0 "a@b.com" "registration" 5 "111111"
    (some "alice") (some "A") (some "B")).2

def c4s2 : AuthState :=
  (OTPRecord.create_otp c4s1 10 "a@b.com" "registration" 5 "222222"
    (some "alice") (some "A") (some "B")).2

/-- C4: issuing a new OTP first retires every unverified record of the
(email, purpose) pair and then inserts the fresh one, so afterwards at
most one record of the pair is `Live` at any time; in the back-to-back
scenario, submitting the first (superseded) code fails with a mismatch
against the new record while the second code verifies. -/
theorem c4_supersede_invariant (s : AuthState) (now now2 v : Nat)
    (email purpose code : String) (tun tfn tln : Option String) :
    ((OTPRecord.create_otp s now email purpose v code tun tfn tln).2.otps.countP
        (pairLive email purpose now2)) ≤ 1 ∧
    (verify_otp c4s2 20 "a@b.com" "111111" "registration").1 =
      .outcome (.invalidRemaining 4) ∧
    (verify_otp c4s2 20 "a@b.com" "222222" "registration").1 =
      .outcome .verified := by
  refine ⟨?_, by decide, by decide⟩
  have h0 : (s.otps.map (fun r =>
      if r.email == email && r.purpose == purpose && !r.is_verified then
        { r with is_verified := true } else r)).countP
        (pairLive email purpose now2) = 0 := by
    refine List.countP_eq_zero.mpr ?_
    intro a ha
    rcases List.mem_map.mp ha with ⟨x, hx, rfl⟩
    rw [pairLive_after_retire email purpose now2 x]
    simp
  simp only [OTPRecord.create_otp, List.countP_append, h0, Nat.zero_add]
  exact (List.countP_le_length _).trans (by simp)

/-! ### C1 — `create_password` requires a verified registration record -/

/-- C1: with a strong, confirmed password, `create_password` fails with
the email-not-verified error and leaves the store untouched whenever no
verified registration record exists for the email; and whenever it
reports an account created, a verified registration record for the email
existed, the account's username is that record's staged username, no
account with that username existed before, and the new store is exactly
the old one extended with the Account built from the staged fields and a
Profile with `is_email_verified = true` — both appended together,
mirroring the single atomic transaction. -/
theorem c1_complete_registration (s : AuthState) (email pw confirm : String) :
    (password_rules_ok pw = true → pw = confirm →
      latestVerified s.otps email "registration" = none →
      create_password s email pw confirm = (.emailNotVerified, s)) ∧
    (∀ un em, (create_password s email pw confirm).1 = .created un em →
      em = email ∧
      ∃ r, latestVerified s.otps email "registration" = some r ∧
        r ∈ s.otps ∧ r.is_verified = true ∧ r.purpose = "registration" ∧
        r.email = email ∧ r.temp_username = some un ∧
        (∀ u, u ∈ s.users → u.username ≠ un) ∧
        create_password s email pw confirm =
          (.created un email,
           { s with users := s.users ++ [mkRegUser un email pw r],
                    profiles := s.profiles ++ [mkRegProfile un] }) ∧
        (mkRegProfile un).is_email_verified = true) := by
  constructor
  · intro hpw hconf hnone
    have hbe : (pw == confirm) = true := beq_iff_eq.mpr hconf
    simp [create_password, hpw, hbe, hnone]
  · intro un em h
    by_cases hpw : password_rules_ok pw = true
    · by_cases hconf : (pw == confirm) = true
      · rcases hq : latestVerified s.otps email "registration" with _ | r
        · simp [create_password, hpw, hconf, hq] at h
        · rcases hun : r.temp_username with _ | un'
          · simp [create_password, hpw, hconf, hq, hun] at h
          · by_cases htaken : (s.users.any (fun u => u.username == un')) = true
            · simp [create_password, hpw, hconf, hq, hun, htaken] at h
            · have hcp : create_password s email pw confirm =
                  (.created un' email,
                   { s with users := s.users ++ [mkRegUser un' email pw r],
                            profiles := s.profiles ++ [mkRegProfile un'] }) := by
                simp [create_password, hpw, hconf, hq, hun, htaken]
              rw [hcp] at h
              injection h with h1 h2
              subst h1
              refine ⟨h2.symm, r, rfl, ?_, ?_, ?_, ?_, hun, ?_, hcp, rfl⟩
              · exact (latestVerified_spec s.otps email "registration" r hq).1
              · exact (latestVerified_spec s.otps email "registration" r hq).2.2.2
              · exact (latestVerified_spec s.otps email "registration" r hq).2.2.1
              · exact (latestVerified_spec s.otps email "registration" r hq).2.1
              · intro u hu hne
                exact htaken (List.any_eq_true.mpr ⟨u, hu, beq_iff_eq.mpr hne⟩)
      · simp [create_password, hpw, hconf] at h
    · simp [create_password, hpw] at h

/-- Empty store for the closed instance of C1. -/
def c1ws : AuthState :=
  { otps := [], users := [], profiles := [], attempts := [], nextId := 0 }

theorem c1_complete_registration_witness :
    create_password c1ws "a@b.com" "Aa1!aaaa" "Aa1!aaaa" = (.emailNotVerified, c1ws) :=
  (c1_complete_registration c1ws "a@b.com" "Aa1!aaaa" "Aa1!aaaa").1
    (by decide) rfl (by decide)

/-! ### C6 — reset replay after bulk invalidation -/

/-- Account, genuinely verified reset record (verified at t = 100) and
store for the replay scenario. -/
def c6user : User :=
  { username := "john", email := "j@x.com", password := "OldPw", first_name := "J",
    last_name := "D", is_staff := false, is_superuser := false, is_active := true }

def c6rec : OTPRecord :=
  { id := 0, email := "j@x.com", otp_code := "123456", purpose := "password_reset",
    is_verified := true, attempts := 1, max_attempts := 5, created_at := 0,
    expires_at := 600, verified_at := some 100, temp_username := some "john",
    temp_first_name := some "J", temp_last_name := some "D" }

def c6s : AuthState :=
  { otps := [c6rec], users := [c6user],
    profiles := [{ username := "john", is_email_verified := true,
                   is_admin_user := false, last_login_ip := none, login_count := 0 }],
    attempts := [], nextId := 1 }

/-- The store after the first successful reset. -/
def c6s1 : AuthState := (reset_password c6s 200 "j@x.com" "Aa1!aaaa" "Aa1!aaaa").2

/-- C6 counterexample: after a successful `reset_password`, a second call
without any fresh OTP issue-and-verify cycle succeeds again — the claim
that the stale verified state cannot be replayed is false.  The bulk
update marks records `is_verified=true`, which is precisely the state the
reset validation looks for, so within the 15-minute `verified_at` window
the reset can be repeated. -/
theorem c6_counterexample :
    (reset_password c6s 200 "j@x.com" "Aa1!aaaa" "Aa1!aaaa").1 = .ok ∧
    (reset_password c6s1 300 "j@x.com" "Bb2@bbbb" "Bb2@bbbb").1 = .ok := by decide

/-- C6 amended: a successful `reset_password` marks every password_reset
record for the email as verified, but this does not block replay — a
second call without a fresh OTP cycle still succeeds while the matching
record's `verified_at` is within the 15-minute window, and is rejected
only once that window has passed. -/
theorem c6_reset_invalidates_amended (s s' : AuthState) (now : Nat)
    (email pw confirm : String)
    (h : reset_password s now email pw confirm = (.ok, s')) :
    s'.otps.all (fun r =>
      !(r.email == email && r.purpose == "password_reset") || r.is_verified) = true ∧
    (reset_password c6s1 300 "j@x.com" "Bb2@bbbb" "Bb2@bbbb").1 = .ok ∧
    (reset_password c6s1 1200 "j@x.com" "Bb2@bbbb" "Bb2@bbbb").1 = .sessionExpired := by
  refine ⟨?_, by decide, by decide⟩
  by_cases h1 : password_rules_ok pw = true
  · by_cases h2 : (pw == confirm) = true
    · rcases h3 : latestVerified s.otps email "password_reset" with _ | r
      · simp [reset_password, h1, h2, h3] at h
      · rcases h4 : r.verified_at with _ | t
        · simp [reset_password, h1, h2, h3, h4] at h
        · by_cases h5 : 900 < now - t
          · simp [reset_password, h1, h2, h3, h4, h5] at h
          · rcases h6 : s.users.find? (fun u => u.email == email) with _ | u
            · simp [reset_password, h1, h2, h3, h4, h5, h6] at h
            · have hstate : ({ s with
                  users := s.users.map (fun x =>
                    if x.username == u.username then { x with password := pw } else x),
                  otps := s.otps.map (fun x =>
                    if x.email == email && x.purpose == "password_reset" then
                      { x with is_verified := true }
                    else x) } : AuthState) = s' := by
                simpa [reset_password, h1, h2, h3, h4, h5, h6] using h
              rw [← hstate]
              refine List.all_eq_true.mpr ?_
              intro a ha
              rcases List.mem_map.mp ha with ⟨x, hx, rfl⟩
              by_cases hm : (x.email == email && x.purpose == "password_reset") = true
              · simp [hm]
              · simp only [Bool.not_eq_true] at hm
                simp [hm]
    · simp [reset_password, h1, h2] at h
  · simp [reset_password, h1] at h

theorem c6_reset_invalidates_witness :
    c6s1.otps.all (fun r =>
      !(r.email == "j@x.com" && r.purpose == "password_reset") || r.is_verified) = true :=
  (c6_reset_invalidates_amended c6s c6s1 200 "j@x.com" "Aa1!aaaa" "Aa1!aaaa"
    (by decide)).1

/-! ### C7 — 15-minute reset window -/

/-- C7: with a strong confirmed password, a matching verified
password_reset record with a `verified_at` stamp, and an account with the
email, `reset_password` is rejected with the session-expired error and
changes nothing whenever the verification lies more than 15 minutes in
the past — even though the record still shows verified=true — and
succeeds within the window. -/
theorem c7_reset_window (s : AuthState) (now t : Nat) (email pw : String)
    (r : OTPRecord)
    (hpw : password_rules_ok pw = true)
    (hfind : latestVerified s.otps email "password_reset" = some r)
    (hva : r.verified_at = some t)
    (huser : (s.users.find? (fun u => u.email == email)).isSome = true) :
    (900 < now - t →
      reset_password s now email pw pw = (.sessionExpired, s)) ∧
    (now - t ≤ 900 → (reset_password s now email pw pw).1 = .ok) := by
  have hbe : (pw == pw) = true := beq_iff_eq.mpr rfl
  constructor
  · intro h5
    simp [reset_password, hpw, hbe, hfind, hva, h5]
  · intro h5
    have h5' : ¬ (900 < now - t) := Nat.not_lt.mpr h5
    rcases Option.isSome_iff_exists.mp huser with ⟨u, hu⟩
    simp [reset_password, hpw, hbe, hfind, hva, h5', hu]

/-- Account and freshly verified reset record for the closed instance of C7. -/
def c7user : User :=
  { username := "emma", email := "e@x.com", password := "OldPw", first_name := "E",
    last_name := "M", is_staff := false, is_superuser := false, is_active := true }

def c7rec : OTPRecord :=
  { id := 0, email := "e@x.com", otp_code := "777777", purpose := "password_reset",
    is_verified := true, attempts := 1, max_attempts := 5, created_at := 0,
    expires_at := 600, verified_at := some 50, temp_username := some "emma",
    temp_first_name := some "E", temp_last_name := some "M" }

def c7s : AuthState :=
  { otps := [c7rec], users := [c7user], profiles := [], attempts := [], nextId := 1 }

theorem c7_reset_window_witness :
    (reset_password c7s 500 "e@x.com" "Cc3#cccc" "Cc3#cccc").1 = .ok :=
  (c7_reset_window c7s 500 50 "e@x.com" "Cc3#cccc" c7rec (by decide) (by decide)
    rfl (by decide)).2 (by decide)

/-! ### C5 — `request_password_reset` send-call signature bug -/

/-- A verified account with no prior reset OTP: the claim's success
preconditions all hold. -/
def c5user : User :=
  { username := "ann", email := "a@x.com", password := "pw", first_name := "A",
    last_name := "N", is_staff := false, is_superuser := false, is_active := true }

def c5s : AuthState :=
  { otps := [], users := [c5user],
    profiles := [{ username := "ann", is_email_verified := true,
                   is_admin_user := false, last_login_ip := none, login_count := 0 }],
    attempts := [], nextId := 0 }

/-- C5: for an identifier resolving to a verified account with no reset
OTP in the last 30 seconds, the view issues the OTP record but then the
`send_otp_to_service` call — whose keywords do not match the function's
parameters — raises, and the endpoint returns the generic 500 instead of
the claimed success payload.  The endpoint can never return the success
outcome. -/
theorem c5_request_reset_bug :
    reset_send_call_ok = false ∧
    (request_password_reset c5s 1000 "a@x.com" "111111").1 = .serverError ∧
    (request_password_reset c5s 1000 "a@x.com" "111111").2.otps.length = 1 := by
  decide

/-! ### C8 — rate limiter and its short-circuit in `user_login` -/

/-- C8: the limiter fires exactly when at least 5 failed attempts inside
the trailing 15-minute window match the source IP or at least 5 match the
identifier; and when it fires, `user_login` rejects immediately with the
rate-limited status and the store is unchanged — in particular no
AttemptRecord is written and no credential is examined. -/
theorem c8_rate_limiter (s : AuthState) (now : Nat) (identifier pw ip : String) :
    (LoginAttempt.is_rate_limited s.attempts now identifier ip = true ↔
      (5 ≤ s.attempts.countP (fun a => a.ip_address == ip && !a.success &&
            decide (now - 15 * 60 ≤ a.attempted_at)) ∨
       5 ≤ s.attempts.countP (fun a => a.username_or_email == identifier && !a.success &&
            decide (now - 15 * 60 ≤ a.attempted_at)))) ∧
    (LoginAttempt.is_rate_limited s.attempts now identifier ip = true →
      user_login s now identifier pw ip = (.rateLimited, s)) := by
  constructor
  · simp [LoginAttempt.is_rate_limited]
  · intro h
    simp [user_login, h]

/-- Five failed attempts from one IP inside the window. -/
def c8row : LoginAttempt :=
  { username_or_email := "other", ip_address := "1.2.3.4", success := false,
    failure_reason := some "Invalid credentials", attempted_at := 500 }

def c8s : AuthState :=
  { otps := [], users := [], profiles := [],
    attempts := [c8row, c8row, c8row, c8row, c8row], nextId := 0 }

theorem c8_rate_limiter_witness :
    user_login c8s 1000 "bob" "pw" "1.2.3.4" = (.rateLimited, c8s) :=
  (c8_rate_limiter c8s 1000 "bob" "pw" "1.2.3.4").2 (by decide)

/-! ### C9 — successful login persists the counter but not the IP -/

def c9user : User :=
  { username := "john", email := "j@y.com", password := "Secret1!", first_name := "J",
    last_name := "D", is_staff := false, is_superuser := false, is_active := true }

def c9prof : UserProfile :=
  { username := "john", is_email_verified := true, is_admin_user := false,
    last_login_ip := some "1.1.1.1", login_count := 7 }

def c9s : AuthState :=
  { otps := [], users := [c9user], profiles := [c9prof], attempts := [], nextId := 0 }

/-- C9: on a successful user login from IP 9.9.9.9, the stored profile's
login counter is persisted as 8, a success AttemptRecord is written and
the token pair embeds the role flag — but the stored `last_login_ip`
remains the old 1.1.1.1: the view assigns the new IP only on the
in-memory object and `increment_login_count` saves with
`update_fields=['login_count']`, so the IP update claimed by the spec is
never persisted. -/
theorem c9_ip_not_persisted :
    (user_login c9s 1000 "john" "Secret1!" "9.9.9.9").1 =
      .ok { username := "john", email := "j@y.com", is_admin := false } ∧
    (user_login c9s 1000 "john" "Secret1!" "9.9.9.9").2.profiles =
      [{ username := "john", is_email_verified := true, is_admin_user := false,
         last_login_ip := some "1.1.1.1", login_count := 8 }] ∧
    (user_login c9s 1000 "john" "Secret1!" "9.9.9.9").2.attempts =
      [{ username_or_email := "john", ip_address := "9.9.9.9", success := true,
         failure_reason := none, attempted_at := 1000 }] := by
  decide

/-! ### C10 — login of an account without a Profile row -/

/-- C10: a non-staff, non-superuser account with no Profile row logs in
successfully with correct credentials: no email-verification gate applies,
the profiles table is untouched (no counter increment, no IP recorded),
exactly one success AttemptRecord is appended, and the issued token's
admin claim is false. -/
theorem c10_login_without_profile (s : AuthState) (now : Nat)
    (idf pw ip : String) (u : User)
    (hnr : LoginAttempt.is_rate_limited s.attempts now idf ip = false)
    (hfind : find_login_user s idf = some u)
    (hact : u.is_active = true) (hpw : u.password = pw)
    (hstaff : u.is_staff = false) (hsup : u.is_superuser = false)
    (hprof : s.profiles.find? (fun p => p.username == u.username) = none) :
    user_login s now idf pw ip =
      (.ok { username := u.username, email := u.email, is_admin := false },
       addAttempt s now idf ip true none) := by
  have hbe : (u.password == pw) = true := beq_iff_eq.mpr hpw
  simp [user_login, hnr, hfind, hact, hbe, hprof, hstaff, hsup, generate_jwt_tokens]

def c10user : User :=
  { username := "sam", email := "s@x.com", password := "Pp5%pppp", first_name := "S",
    last_name := "A", is_staff := false, is_superuser := false, is_active := true }

def c10s : AuthState :=
  { otps := [], users := [c10user], profiles := [], attempts := [], nextId := 0 }

theorem c10_login_without_profile_witness :
    user_login c10s 10 "sam" "Pp5%pppp" "1.1.1.1" =
      (.ok { username := "sam", email := "s@x.com", is_admin := false },
       addAttempt c10s 10 "sam" "1.1.1.1" true none) :=
  c10_login_without_profile c10s 10 "sam" "Pp5%pppp" "1.1.1.1" c10user
    (by decide) (by decide) rfl rfl rfl rfl (by decide)
